import Mathlib

/-!
Shallow embedding of the judging pipeline of the GenAI online-judge repository.

The repository holds two variants of the pipeline:
* `ai2.py`: `evaluate_submission` runs `subprocess.run(["python3"], input=submission.code,
  timeout=5)` per test case inside a `try`, strips the captured stdout, compares it with the
  raw expected output, and appends either a full result record or an `{"error": str(e)}`
  record; finally it sets `status` and `result` and saves.
* `ai4.py`: `execute_code` runs the code in a docker container (no stdin), strips the logs on
  success and returns `str(e)` on exception; `evaluate_submission` compares that string with
  the raw expected output; `Submission.save()` fires a `post_save` signal
  (`update_leaderboard_on_submission`) which, when the saved status is `accepted`, calls
  `Leaderboard.update_leaderboard(user, 10)`.

Machine-level effects are made explicit: the persistence layer is the returned values, the
`post_save` signal is invoked by the embedding of `save`, exceptions are `Except.error`, and
the operating-system behaviour of `python3`/docker is an oracle parameter.
-/

namespace OJ

/-- Submission status column of `ai2.py`/`ai4.py` (`pending`/`accepted`/`rejected`). -/
inductive Status where
  | pending
  | accepted
  | rejected
deriving DecidableEq, Repr

/-- One element of `Problem.test_cases` (a JSONField storing dictionaries): the `"input"` and
`"output"` keys may each be present or absent, since nothing validates the JSON shape. -/
structure TestCase where
  input? : Option String
  output? : Option String
deriving DecidableEq, Repr

/-- Outcome of one sandbox invocation (a `subprocess.run` call in `ai2.py`, a
`client.containers.run` call in `ai4.py`): either the process completed and its standard
output was captured, or the library raised an exception (timeout, resource breach, runtime
fault) carrying the message `str(e)`. -/
inductive ExecOutcome where
  | output (stdout : String)
  | exc (msg : String)
deriving DecidableEq, Repr

/-- One element of the `results` list built by `evaluate_submission`: either the full record
`{"input": .., "expected": .., "actual": ..}` or the bare record `{"error": str(e)}` appended
by the `except` branch of `ai2.py`. -/
inductive ResultEntry where
  | entry (input expected actual : String)
  | error (msg : String)
deriving DecidableEq, Repr

/-- The fields of a `Submission` row that the judging pipeline reads or writes. -/
structure Submission where
  id : Nat
  userId : Nat
  code : String
  status : Status := .pending
  result : Option (List ResultEntry) := none
deriving DecidableEq, Repr

/-- Python's `str.strip()` on the character sequence: remove leading and trailing
whitespace characters, leaving the interior untouched. -/
def strip (s : String) : String :=
  ⟨((s.data.dropWhile Char.isWhitespace).reverse.dropWhile Char.isWhitespace).reverse⟩

/-- All test cases carry both the `"input"` and the `"output"` key. -/
def wellFormed (tests : List TestCase) : Bool :=
  tests.all fun t => t.input?.isSome && t.output?.isSome

/-! ### Leaderboard (`ai4.py`, lines 144-163)

`Leaderboard` has a `OneToOneField` on the user, so the table is a partial map from user id to
integer score. -/

/-- The leaderboard table: each user has at most one row holding a cumulative score. -/
def Lb : Type := Nat → Option Int

/-- Reading a user's score: the row's score, or 0 when the user has no row yet. -/
def getScore (lb : Lb) (u : Nat) : Int :=
  (lb u).getD 0

/-- `Leaderboard.update_leaderboard(user, points)`: `get_or_create` the row (a fresh row has
`score=0`), add `points` to its score, save. No submission identifier is consulted or
recorded. -/
def update_leaderboard (lb : Lb) (u : Nat) (points : Int) : Lb :=
  let current : Int := (lb u).getD 0
  fun v => if v = u then some (current + points) else lb v

/-- The `post_save` receiver `update_leaderboard_on_submission`: on every save of a
submission whose status is `accepted`, credit 10 points to the submitting user. -/
def update_leaderboard_on_submission (lb : Lb) (s : Submission) : Lb :=
  if s.status = .accepted then update_leaderboard lb s.userId 10 else lb

/-! ### `ai2.py` evaluation (lines 102-130) -/

namespace AI2

/-- The loop body of `ai2.evaluate_submission` over the test cases, parameterised by the
oracle `pyExec stdinText`: the outcome of `subprocess.run(["python3"], input=stdinText,
capture_output=True, text=True, timeout=5)`. The code feeds `submission.code` — not the test
case's input — to the process. `test["input"]`/`test["output"]` are read before the `try`,
so a missing key raises a `KeyError` which propagates (`Except.error`); inside the `try`, an
exception from the subprocess is caught, sets `passed = False`, and appends an error record. -/
def runTests (pyExec : String → ExecOutcome) (code : String) :
    List TestCase → Except String (Bool × List ResultEntry)
  | [] => .ok (true, [])
  | t :: ts =>
    match t.input? with
    | none => .error "KeyError: input"
    | some input_data =>
      match t.output? with
      | none => .error "KeyError: output"
      | some expected_output =>
        match runTests pyExec code ts with
        | .error e => .error e
        | .ok (restPassed, rest) =>
          match pyExec code with
          | .output stdout =>
            let actual := strip stdout
            .ok ((actual == expected_output) && restPassed,
                 .entry input_data expected_output actual :: rest)
          | .exc e =>
            .ok (false, .error e :: rest)

/-- `ai2.evaluate_submission`: run all test cases, then set `status` to `accepted` iff
`passed` stayed true, store `results`, and save. An uncaught exception (the `KeyError` of a
malformed test case) propagates before any field is written, so the submission is returned
unchanged only through `Except.error`. -/
def evaluate_submission (pyExec : String → ExecOutcome) (tests : List TestCase)
    (s : Submission) : Except String Submission :=
  match runTests pyExec s.code tests with
  | .error e => .error e
  | .ok (passed, results) =>
    .ok { s with status := if passed then .accepted else .rejected, result := some results }

/-- The record the `ai2` loop appends for a test case, as a function of the oracle outcome. -/
def resultFor (pyExec : String → ExecOutcome) (code : String) (t : TestCase) : ResultEntry :=
  match pyExec code with
  | .output stdout => .entry (t.input?.getD "") (t.output?.getD "") (strip stdout)
  | .exc e => .error e

/-- The `ai2` pass criterion for one test case: the subprocess completed and its stripped
stdout equals the raw expected output. -/
def casePasses (pyExec : String → ExecOutcome) (code : String) (t : TestCase) : Bool :=
  match pyExec code with
  | .output stdout => strip stdout == t.output?.getD ""
  | .exc _ => false

end AI2

/-! ### `ai4.py` sandbox, evaluation and signal (lines 101-163) -/

namespace AI4

/-- `ai4.execute_code`: run the code in a docker container (the container receives no
standard input), return the stripped logs; any exception is caught and `str(e)` is returned
as if it were output. -/
def execute_code (docker_run : String → ExecOutcome) (code : String) : String :=
  match docker_run code with
  | .output logs => strip logs
  | .exc e => e

/-- The loop body of `ai4.evaluate_submission`: key lookups may raise `KeyError` (no `try`
anywhere in this variant); `execute_code` never raises; every appended record is a full
input/expected/actual record. -/
def runTests (docker_run : String → ExecOutcome) (code : String) :
    List TestCase → Except String (Bool × List ResultEntry)
  | [] => .ok (true, [])
  | t :: ts =>
    match t.input? with
    | none => .error "KeyError: input"
    | some input_data =>
      match t.output? with
      | none => .error "KeyError: output"
      | some expected_output =>
        match runTests docker_run code ts with
        | .error e => .error e
        | .ok (restPassed, rest) =>
          let actual := execute_code docker_run code
          .ok ((actual == expected_output) && restPassed,
               .entry input_data expected_output actual :: rest)

/-- `ai4.evaluate_submission` together with the `post_save` signal fired by
`submission.save()`: set status and result, save, and let `update_leaderboard_on_submission`
react to the save. Returns the saved submission and the leaderboard after the signal. -/
def evaluate_submission (docker_run : String → ExecOutcome) (tests : List TestCase)
    (s : Submission) (lb : Lb) : Except String (Submission × Lb) :=
  match runTests docker_run s.code tests with
  | .error e => .error e
  | .ok (passed, results) =>
    let s' : Submission :=
      { s with status := if passed then .accepted else .rejected, result := some results }
    .ok (s', update_leaderboard_on_submission lb s')

end AI4

/-! ### Concrete instances used by the claim theorems and witnesses -/

/-- A typical passing configuration: the code prints `5` and one test expects `"5"`. -/
def c4wSub : Submission := { id := 31, userId := 1, code := "print(42)" }

/-- Oracle for the C4 witness: the process prints `42` with a trailing newline. -/
def c4wPy : String → ExecOutcome := fun _ => .output "42\n"

/-- Pending submission for the C5 witness. -/
def c5wSub : Submission := { id := 51, userId := 2, code := "w" }

/-- The saved submission the C5 witness run produces. -/
def c5wSub' : Submission :=
  { id := 51, userId := 2, code := "w", status := .accepted,
    result := some [.entry "2 3" "5" "5"] }

/-- Oracle for the C5 witness. -/
def c5wPy : String → ExecOutcome := fun _ => .output "5\n"

/-- Test list for the C5 witness. -/
def c5wTests : List TestCase := [⟨some "2 3", some "5"⟩]

/-- Pending submission for the C6 witness. -/
def c6wSub : Submission := { id := 61, userId := 3, code := "loop" }

/-- Oracle for the C6 witness: every invocation times out. -/
def c6wPy : String → ExecOutcome := fun _ => .exc "TimedOut"

/-- Test list for the C6 witness. -/
def c6wTests : List TestCase := [⟨some "2 3", some "5"⟩]

/-- Pending submission for the C7 witness. -/
def c7wSub : Submission := { id := 72, userId := 1, code := "w" }

/-- The saved submission the C7 witness run produces. -/
def c7wSub' : Submission :=
  { id := 72, userId := 1, code := "w", status := .accepted,
    result := some [.entry "1 2" "7" "7"] }

/-- Oracle for the C7 witness: stdout carries surrounding whitespace. -/
def c7wPy : String → ExecOutcome := fun _ => .output " 7 "

/-- Test list for the C7 witness. -/
def c7wTests : List TestCase := [⟨some "1 2", some "7"⟩]

/-- Pending submission for the C8 witness. -/
def c8wSub : Submission := { id := 82, userId := 1, code := "print(5)" }

/-- Oracle for the C8 witness. -/
def c8wPy : String → ExecOutcome := fun _ => .output "5"

/-- Malformed test list for the C8 witness: the second case lacks its `"output"` key. -/
def c8wTests : List TestCase := [⟨some "1", some "5"⟩, ⟨some "2", none⟩]

/-- Pending submission for the C9 witness. -/
def c9wSub : Submission := { id := 91, userId := 4, code := "print(0)" }

/-- The saved submission the C9 witness run produces. -/
def c9wSub' : Submission :=
  { id := 91, userId := 4, code := "print(0)", status := .rejected,
    result := some [.entry "2 3" "5" "0", .entry "10 20" "30" "0"] }

/-- Oracle for the C9 witness: the process always prints `0`. -/
def c9wPy : String → ExecOutcome := fun _ => .output "0\n"

/-- Test list for the C9 witness. -/
def c9wTests : List TestCase := [⟨some "2 3", some "5"⟩, ⟨some "10 20", some "30"⟩]

/-! ### Structural lemmas about the `ai2` evaluation -/

namespace AI2

/-- On well-formed test data the `ai2` loop completes normally: the accumulated `passed`
flag is the conjunction of the per-case pass criteria and the results list maps each test
case, in order, to the record the loop appends for it. -/
theorem runTests_wellFormed_eq (pyExec : String → ExecOutcome) (code : String) :
    ∀ tests : List TestCase, wellFormed tests = true →
      runTests pyExec code tests =
        .ok (tests.all (casePasses pyExec code), tests.map (resultFor pyExec code))
  | [], _ => rfl
  | t :: ts, h => by
    simp only [wellFormed, List.all_cons, Bool.and_eq_true] at h
    obtain ⟨⟨hi, ho⟩, hts⟩ := h
    obtain ⟨it, hit⟩ := Option.isSome_iff_exists.mp hi
    obtain ⟨ot, hot⟩ := Option.isSome_iff_exists.mp ho
    have ih := runTests_wellFormed_eq pyExec code ts hts
    simp only [runTests, hit, hot, ih, List.all_cons, List.map_cons]
    cases hpe : pyExec code with
    | output stdout => simp [casePasses, resultFor, hpe, hit, hot]
    | exc m => simp [casePasses, resultFor, hpe]

/-- A malformed test case (a missing `"input"` or `"output"` key) makes the `ai2` loop raise
a `KeyError` that nothing catches. -/
theorem runTests_malformed (pyExec : String → ExecOutcome) (code : String) :
    ∀ tests : List TestCase, wellFormed tests = false →
      ∃ e, runTests pyExec code tests = .error e
  | t :: ts, h => by
    simp only [wellFormed, List.all_cons, Bool.and_eq_false_iff] at h
    cases hi : t.input? with
    | none => exact ⟨"KeyError: input", by simp [runTests, hi]⟩
    | some it =>
      cases ho : t.output? with
      | none => exact ⟨"KeyError: output", by simp [runTests, hi, ho]⟩
      | some ot =>
        have hts : wellFormed ts = false := by
          rcases h with h | h
          · rcases h with h | h <;> simp [hi, ho] at h
          · exact h
        obtain ⟨e, he⟩ := runTests_malformed pyExec code ts hts
        exact ⟨e, by simp [runTests, hi, ho, he]⟩

/-- A normal return of `ai2.evaluate_submission` certifies that every test case carried both
keys (otherwise the `KeyError` would have propagated instead). -/
theorem evaluate_ok_wellFormed {pyExec : String → ExecOutcome} {tests : List TestCase}
    {s s' : Submission} (h : evaluate_submission pyExec tests s = .ok s') :
    wellFormed tests = true := by
  by_contra hw
  obtain ⟨e, he⟩ := runTests_malformed pyExec s.code tests (Bool.not_eq_true _ ▸ hw)
  rw [evaluate_submission, he] at h
  exact Except.noConfusion h

/-- The submission saved by a normal return of `ai2.evaluate_submission`: status is
`accepted` exactly when every case met the code's pass criterion, and the stored result maps
the test cases, in order, to their appended records. -/
theorem evaluate_ok_eq {pyExec : String → ExecOutcome} {tests : List TestCase}
    {s s' : Submission} (h : evaluate_submission pyExec tests s = .ok s') :
    s' = { s with
           status := if tests.all (casePasses pyExec s.code) then .accepted else .rejected,
           result := some (tests.map (resultFor pyExec s.code)) } := by
  have hw := evaluate_ok_wellFormed h
  rw [evaluate_submission, runTests_wellFormed_eq pyExec s.code tests hw] at h
  exact (Except.ok.injEq _ _).mp h |>.symm

end AI2

/-! ### Claims -/

/-- C1: the claim says the scoring accrual credit operation is idempotent per submission
identifier. The code's `Leaderboard.update_leaderboard` keeps no record of credited
submission identifiers, so two saves of the same accepted submission (id 5, user 7) fire the
`post_save` receiver twice and the score becomes 20, not 10: the accrual is not idempotent.
The claim matches the spec's stated intent; the code lacks the guard. -/
theorem c1_accrual_not_idempotent :
    getScore
      (update_leaderboard_on_submission
        (update_leaderboard_on_submission (fun _ => none)
          { id := 5, userId := 7, code := "c", status := .accepted, result := some [] })
        { id := 5, userId := 7, code := "c", status := .accepted, result := some [] }) 7
      = 20 := by decide

/-- C2: the claim says re-judging an already-terminal submission is a no-op. The code has no
terminal-status guard: a second `evaluate_submission` on an accepted submission re-runs the
tests, re-saves, and the `post_save` signal credits the user another 10 points (score 10
becomes 20), so the user's leaderboard score is changed by the second invocation. -/
theorem c2_terminal_rejudge_not_noop :
    AI4.evaluate_submission (fun _ => .output "5\n") [⟨some "2 3", some "5"⟩]
        { id := 6, userId := 1, code := "print(5)" } (fun _ => none) =
      .ok ({ id := 6, userId := 1, code := "print(5)", status := .accepted,
             result := some [.entry "2 3" "5" "5"] },
           update_leaderboard (fun _ => none) 1 10) ∧
    AI4.evaluate_submission (fun _ => .output "5\n") [⟨some "2 3", some "5"⟩]
        { id := 6, userId := 1, code := "print(5)", status := .accepted,
          result := some [.entry "2 3" "5" "5"] }
        (update_leaderboard (fun _ => none) 1 10) =
      .ok ({ id := 6, userId := 1, code := "print(5)", status := .accepted,
             result := some [.entry "2 3" "5" "5"] },
           update_leaderboard (update_leaderboard (fun _ => none) 1 10) 1 10) ∧
    getScore (update_leaderboard (fun _ => none) 1 10) 1 = 10 ∧
    getScore (update_leaderboard (update_leaderboard (fun _ => none) 1 10) 1 10) 1 = 20 :=
  ⟨rfl, rfl, by decide, by decide⟩

/-- C3: the claim says each test case's input is supplied on the executed process's standard
input and the recorded actual output is the code's stdout for that input. The `ai2` code
feeds `submission.code` — not the test input — to `python3`'s standard input: under an
oracle where the process echoes its standard input, both recorded actual outputs are the
code text itself, identical across two cases with different inputs, so the recorded actual
output is not the code's stdout for the case's input. -/
theorem c3_test_input_never_supplied :
    AI2.evaluate_submission (fun stdinText => .output stdinText)
        [⟨some "2 3", some "5"⟩, ⟨some "10 20", some "30"⟩]
        { id := 4, userId := 1, code := "ECHO-SUM" } =
      .ok { id := 4, userId := 1, code := "ECHO-SUM", status := .rejected,
            result := some [.entry "2 3" "5" "ECHO-SUM",
                            .entry "10 20" "30" "ECHO-SUM"] } := rfl

/-- C4 counterexample: the claim says both the captured and the expected output are trimmed,
so a trailing-whitespace difference in the expected output does not cause a mismatch. With
expected `"5 "` and captured stdout `"5"` the trimmed strings are equal, yet the code
compares the stripped stdout with the raw expected output and rejects the submission. -/
theorem c4_counterexample :
    strip "5" = strip "5 " ∧
    AI2.evaluate_submission (fun _ => .output "5") [⟨some "2 3", some "5 "⟩]
        { id := 3, userId := 1, code := "print(5)" } =
      .ok { id := 3, userId := 1, code := "print(5)", status := .rejected,
            result := some [.entry "2 3" "5 " "5"] } :=
  ⟨rfl, rfl⟩

/-- C4 amended: only the captured output is stripped; the expected output is compared
verbatim. The case passes iff the stripped stdout equals the raw expected output, so
expected `"42"` still matches actual `"42\n"`, but trailing whitespace in the expected
output causes a mismatch, as does any interior difference. -/
theorem c4_strip_actual_only (pyExec : String → ExecOutcome) (s : Submission)
    (input expected stdout : String) (h : pyExec s.code = .output stdout) :
    AI2.evaluate_submission pyExec [⟨some input, some expected⟩] s =
      .ok { s with
            status := if strip stdout == expected then .accepted else .rejected,
            result := some [.entry input expected (strip stdout)] } := by
  simp [AI2.evaluate_submission, AI2.runTests, h]

/-- C4 witness: the amended comparison at a concrete input — expected `"42"`, captured
stdout `"42\n"`, accepted. -/
theorem c4_strip_actual_only_witness :
    c4wPy c4wSub.code = ExecOutcome.output "42\n" ∧
    AI2.evaluate_submission c4wPy [⟨some "1", some "42"⟩] c4wSub =
      .ok { c4wSub with status := .accepted, result := some [.entry "1" "42" "42"] } := by
  refine ⟨rfl, ?_⟩
  rw [c4_strip_actual_only c4wPy c4wSub "1" "42" "42\n" rfl]
  rfl

/-- C5: the overall verdict is conjunctive: on a normal return the saved status is
`accepted` iff every test case met the pass criterion and `rejected` otherwise, and the
saved result covers every test case in order (the loop never short-circuits). -/
theorem c5_conjunctive_verdict (pyExec : String → ExecOutcome) (tests : List TestCase)
    (s s' : Submission) (h : AI2.evaluate_submission pyExec tests s = .ok s') :
    (s'.status = .accepted ↔ tests.all (AI2.casePasses pyExec s.code) = true) ∧
    (s'.status = .rejected ↔ tests.all (AI2.casePasses pyExec s.code) = false) ∧
    s'.result = some (tests.map (AI2.resultFor pyExec s.code)) := by
  have he := AI2.evaluate_ok_eq h
  subst he
  cases hall : tests.all (AI2.casePasses pyExec s.code) <;> simp [hall]

/-- C5 witness: a one-case run whose only case passes is accepted. -/
theorem c5_conjunctive_verdict_witness :
    (AI2.evaluate_submission c5wPy c5wTests c5wSub = .ok c5wSub') ∧
    ((c5wSub'.status = .accepted ↔ c5wTests.all (AI2.casePasses c5wPy c5wSub.code) = true) ∧
     (c5wSub'.status = .rejected ↔ c5wTests.all (AI2.casePasses c5wPy c5wSub.code) = false) ∧
     c5wSub'.result = some (c5wTests.map (AI2.resultFor c5wPy c5wSub.code))) :=
  ⟨rfl, c5_conjunctive_verdict c5wPy c5wTests c5wSub c5wSub' rfl⟩

/-- C6: a sandbox fault (the subprocess call raising, e.g. a timeout or a runtime crash of
the submitted code) is absorbed by the harness: evaluation still returns normally (never a
harness-level error), the failure tag is recorded in place of the actual output for every
affected case, and the submission is rejected. -/
theorem c6_sandbox_fault_absorbed (pyExec : String → ExecOutcome) (tests : List TestCase)
    (s : Submission) (msg : String) (hw : wellFormed tests = true)
    (hf : pyExec s.code = .exc msg) (hne : tests ≠ []) :
    AI2.evaluate_submission pyExec tests s =
      .ok { s with
            status := .rejected,
            result := some (tests.map fun _ => ResultEntry.error msg) } := by
  have hrt := AI2.runTests_wellFormed_eq pyExec s.code tests hw
  have h1 : tests.all (AI2.casePasses pyExec s.code) = false := by
    cases tests with
    | nil => exact absurd rfl hne
    | cons t ts => simp [List.all_cons, AI2.casePasses, hf]
  have h2 : tests.map (AI2.resultFor pyExec s.code) = tests.map fun _ => ResultEntry.error msg :=
    List.map_congr_left fun t _ => by simp [AI2.resultFor, hf]
  simp [AI2.evaluate_submission, hrt, h1, h2]

/-- C6 witness: a timed-out run of one test case is rejected with the failure tag recorded,
with no error escaping the harness. -/
theorem c6_sandbox_fault_absorbed_witness :
    wellFormed c6wTests = true ∧ c6wPy c6wSub.code = .exc "TimedOut" ∧ c6wTests ≠ [] ∧
    AI2.evaluate_submission c6wPy c6wTests c6wSub =
      .ok { c6wSub with
            status := .rejected,
            result := some (c6wTests.map fun _ => ResultEntry.error "TimedOut") } :=
  ⟨by decide, rfl, by decide,
   c6_sandbox_fault_absorbed c6wPy c6wTests c6wSub "TimedOut" (by decide) rfl (by decide)⟩

/-- C7 counterexample: the claim says every entry of the persisted result records the test
case's input and expected output. On a fault the `ai2` loop appends the bare record
`{"error": str(e)}`: the persisted entry for the case with input `"2 3"` and expected `"5"`
is `.error "TimeoutExpired"`, which carries neither the input nor the expected output. -/
theorem c7_counterexample :
    AI2.evaluate_submission (fun _ => .exc "TimeoutExpired") [⟨some "2 3", some "5"⟩]
        { id := 71, userId := 1, code := "slow" } =
      .ok { id := 71, userId := 1, code := "slow", status := .rejected,
            result := some [.error "TimeoutExpired"] } ∧
    ∀ a : String, ResultEntry.error "TimeoutExpired" ≠ .entry "2 3" "5" a :=
  ⟨rfl, fun _ h => ResultEntry.noConfusion h⟩

/-- C7 amended: each persisted entry is either a full record carrying that case's input,
expected output and the stripped stdout (when the subprocess completed), or a bare error
record carrying only the fault tag (when it raised); the two shapes and the tag keep
timeout, runtime error and wrong output distinguishable, but a fault entry does not repeat
the case's input or expected output. -/
theorem c7_entry_shapes (pyExec : String → ExecOutcome) (tests : List TestCase)
    (s s' : Submission) (h : AI2.evaluate_submission pyExec tests s = .ok s') :
    ∃ l, s'.result = some l ∧ l.length = tests.length ∧
      ∀ i : Nat, ∀ t : TestCase, tests[i]? = some t →
        (∀ stdout, pyExec s.code = .output stdout →
          l[i]? = some (.entry (t.input?.getD "") (t.output?.getD "") (strip stdout))) ∧
        (∀ msg, pyExec s.code = .exc msg → l[i]? = some (.error msg)) := by
  have he := AI2.evaluate_ok_eq h
  subst he
  refine ⟨tests.map (AI2.resultFor pyExec s.code), rfl, by simp, ?_⟩
  intro i t ht
  constructor
  · intro stdout hpe
    simp [List.getElem?_map, ht, AI2.resultFor, hpe]
  · intro msg hpe
    simp [List.getElem?_map, ht, AI2.resultFor, hpe]

/-- C7 witness: a completed one-case run stores the full record. -/
theorem c7_entry_shapes_witness :
    (AI2.evaluate_submission c7wPy c7wTests c7wSub = .ok c7wSub') ∧
    (∃ l, c7wSub'.result = some l ∧ l.length = c7wTests.length ∧
      ∀ i : Nat, ∀ t : TestCase, c7wTests[i]? = some t →
        (∀ stdout, c7wPy c7wSub.code = .output stdout →
          l[i]? = some (.entry (t.input?.getD "") (t.output?.getD "") (strip stdout))) ∧
        (∀ msg, c7wPy c7wSub.code = .exc msg → l[i]? = some (.error msg))) :=
  ⟨rfl, c7_entry_shapes c7wPy c7wTests c7wSub c7wSub' rfl⟩

/-- C8 counterexample: the claim says a submission with malformed test-case data is marked
rejected with a diagnostic entry. The key lookups sit before the `try`, so a test case
missing its `"input"` key raises a `KeyError` that propagates out of `evaluate_submission`;
no saved submission is ever produced and the submission stays pending. -/
theorem c8_counterexample :
    AI2.evaluate_submission (fun _ => .output "5") [⟨none, some "5"⟩]
        { id := 81, userId := 1, code := "print(5)" } = .error "KeyError: input" ∧
    ∀ s' : Submission,
      AI2.evaluate_submission (fun _ => .output "5") [⟨none, some "5"⟩]
        { id := 81, userId := 1, code := "print(5)" } ≠ .ok s' := by
  refine ⟨rfl, fun s' h => ?_⟩
  simp [AI2.evaluate_submission, AI2.runTests] at h

/-- C8 amended: malformed test-case data (a case missing its `"input"` or `"output"` key)
makes the judging operation raise: the error propagates to the caller and no terminal
status is ever persisted for the submission — it is left pending, not marked rejected. -/
theorem c8_malformed_raises (pyExec : String → ExecOutcome) (tests : List TestCase)
    (s : Submission) (hw : wellFormed tests = false) :
    (∃ e, AI2.evaluate_submission pyExec tests s = .error e) ∧
    ∀ s', AI2.evaluate_submission pyExec tests s ≠ .ok s' := by
  obtain ⟨e, he⟩ := AI2.runTests_malformed pyExec s.code tests hw
  refine ⟨⟨e, by simp [AI2.evaluate_submission, he]⟩, fun s' h => ?_⟩
  simp [AI2.evaluate_submission, he] at h

/-- C8 witness: a list whose second case lacks its expected-output key makes the evaluation
raise instead of saving. -/
theorem c8_malformed_raises_witness :
    wellFormed c8wTests = false ∧
    ((∃ e, AI2.evaluate_submission c8wPy c8wTests c8wSub = .error e) ∧
     ∀ s', AI2.evaluate_submission c8wPy c8wTests c8wSub ≠ .ok s') :=
  ⟨by decide, c8_malformed_raises c8wPy c8wTests c8wSub (by decide)⟩

/-- C9: on a normal return the persisted result has exactly one entry per test case and the
entries appear in the order of the problem's test-case sequence: the `i`-th entry is the
record of the `i`-th test case. -/
theorem c9_one_entry_per_case_in_order (pyExec : String → ExecOutcome)
    (tests : List TestCase) (s s' : Submission)
    (h : AI2.evaluate_submission pyExec tests s = .ok s') :
    ∃ l, s'.result = some l ∧ l.length = tests.length ∧
      ∀ i : Nat, l[i]? = (tests[i]?).map (AI2.resultFor pyExec s.code) := by
  have he := AI2.evaluate_ok_eq h
  subst he
  exact ⟨tests.map (AI2.resultFor pyExec s.code), rfl, by simp,
    fun i => by simp [List.getElem?_map]⟩

/-- C9 witness: a two-case run stores two entries in test order. -/
theorem c9_one_entry_per_case_in_order_witness :
    (AI2.evaluate_submission c9wPy c9wTests c9wSub = .ok c9wSub') ∧
    (∃ l, c9wSub'.result = some l ∧ l.length = c9wTests.length ∧
      ∀ i : Nat, l[i]? = (c9wTests[i]?).map (AI2.resultFor c9wPy c9wSub.code)) :=
  ⟨rfl, c9_one_entry_per_case_in_order c9wPy c9wTests c9wSub c9wSub' rfl⟩

/-- C10: a submission whose problem has no test cases is vacuously accepted: `passed` stays
true, the saved result is the empty list, and the `post_save` signal credits the submitting
user 10 points. -/
theorem c10_empty_tests_accepted_and_credited (docker_run : String → ExecOutcome)
    (s : Submission) (lb : Lb) :
    AI4.evaluate_submission docker_run [] s lb =
      .ok ({ s with status := .accepted, result := some [] },
           update_leaderboard lb s.userId 10) ∧
    getScore (update_leaderboard lb s.userId 10) s.userId = getScore lb s.userId + 10 := by
  constructor
  · rfl
  · simp [getScore, update_leaderboard]

end OJ
